import Mathlib

/-
Verification of the Hevy Insights backend (src/backend/hevy_api.py and
src/backend/fastapi_server.py) against its natural-language specification.

The Python code is shallowly embedded: the client wrapper (HevyClient) is a
pure state-passing function parametrised by the outcome of the single outbound
network call it performs, and the FastAPI relay layer is a pure function from
inbound request data (plus that network outcome) to a response model.
-/

namespace HevyInsights

/-- Decidable equality for `Except`, needed to evaluate claims on concrete
inputs with `decide`. -/
instance {ε α : Type} [DecidableEq ε] [DecidableEq α] : DecidableEq (Except ε α) := fun a b =>
  match a, b with
  | .ok x, .ok y =>
    if h : x = y then .isTrue (by rw [h])
    else .isFalse (by intro hc; injection hc; contradiction)
  | .error x, .error y =>
    if h : x = y then .isTrue (by rw [h])
    else .isFalse (by intro hc; injection hc; contradiction)
  | .ok _, .error _ => .isFalse (by intro hc; injection hc)
  | .error _, .ok _ => .isFalse (by intro hc; injection hc)

/-- Python's substring test `pat in s`, on character lists: true iff `pat`
occurs contiguously in `s`. -/
def hasSubstring (pat : List Char) : List Char → Bool
  | [] => pat.isEmpty
  | c :: rest => pat.isPrefixOf (c :: rest) || hasSubstring pat rest

/-- Python's `pat in s` on strings. -/
def pyIn (pat s : String) : Bool :=
  hasSubstring pat.data s.data

/-- Python truthiness of an `Optional[str]`: `None` and the empty string are
falsy, every other string is truthy.  The client tests its token with
`if auth_token:` and `if not self.auth_token:`. -/
def truthy : Option String → Bool
  | none => false
  | some s => !(s == "")

/-! ## Configuration (hevy_api.HevyConfig) -/

/-- `HevyConfig.base_url`. -/
def base_url : String := "https://api.hevyapp.com"

/-- `HevyConfig.x_api_key`, static for all users. -/
def x_api_key : String := "klean_kanteen_insulated"

/-- `HevyConfig.login_url`. -/
def login_url : String := base_url ++ "/login"

/-- `HevyConfig.validate_token_url`. -/
def validate_token_url : String := base_url ++ "/validate_auth_token"

/-- `HevyConfig.user_account_url`. -/
def user_account_url : String := base_url ++ "/user/account"

/-- `HevyConfig.user_workouts_paged_url`. -/
def user_workouts_paged_url : String := base_url ++ "/user_workouts_paged"

/-! ## Data model -/

/-- The three session headers that `HevyClient._update_headers` writes
(`x-api-key`, `auth-token`, `Content-Type`).  `none` means the header is not
set.  Other headers of the underlying requests session are never touched by
the code and are not tracked. -/
structure SessionHeaders where
  xApiKey : Option String
  authToken : Option String
  contentType : Option String
deriving DecidableEq

/-- A fresh requests session carries none of the three tracked headers. -/
def SessionHeaders.empty : SessionHeaders := ⟨none, none, none⟩

/-- The dataclass `hevy_api.HevyUser`.  The fields are annotated `str` in
Python but receive `data.get(...)`, which is `None` when the key is absent;
Python does not enforce the annotation, so the fields are `Option String`
here, reflecting the values actually stored at runtime. -/
structure HevyUser where
  auth_token : Option String
  user_id : Option String
  username : Option String
  email : Option String
deriving DecidableEq

/-- The mutable state of a `hevy_api.HevyClient`: its `auth_token` attribute
and the tracked session headers. -/
structure HevyClient where
  auth_token : Option String
  headers : SessionHeaders
deriving DecidableEq

/-- `HevyClient._update_headers`: writes `x-api-key`, `auth-token` and
`Content-Type` into the session headers from the current state. -/
def HevyClient.updateHeaders (c : HevyClient) : HevyClient :=
  { c with headers := ⟨some x_api_key, c.auth_token, some "application/json"⟩ }

/-- `HevyClient.__init__(auth_token)`: stores the token and updates the
session headers only when the token is truthy (non-`None`, non-empty). -/
def HevyClient.init (tok : Option String) : HevyClient :=
  let c : HevyClient := ⟨tok, SessionHeaders.empty⟩
  if truthy tok then c.updateHeaders else c

/-! ## Network outcomes

Each client method performs at most one outbound call through `requests`.
The environment's behaviour on that call is an explicit parameter. -/

/-- Outcome of one outbound `requests` call.

  * `response status errStr body`: the server answered with `status`.
    `errStr` is the text `str(e)` of the `requests.HTTPError` that
    `raise_for_status()` would raise for this response (built by requests
    from status, reason phrase and URL; opaque here).  `body` is the result
    of `response.json()`: `Except.error d` models a
    `requests.JSONDecodeError` whose text is `d`.
  * `connError d`: `requests.ConnectionError` with text `d`.
  * `timeout d`: `requests.Timeout` with text `d`.
  * `otherExc d`: any other exception with text `d`. -/
inductive NetResult (β : Type) where
  | response (status : Nat) (errStr : String) (body : Except String β)
  | connError (d : String)
  | timeout (d : String)
  | otherExc (d : String)
deriving DecidableEq

/-- `requests.Response.raise_for_status` raises `HTTPError` exactly for
status codes in [400, 600). -/
def raiseForStatus (status : Nat) : Bool :=
  decide (400 ≤ status) && decide (status < 600)

/-- A Python exception as it leaves a client method: either the domain error
`HevyError` with its message, or some other exception type (which the relay
handlers that only catch `HevyError` do not intercept). -/
inductive PyExc where
  | hevy (msg : String)
  | other (msg : String)
deriving DecidableEq

/-- Result of one client-method call: the returned value or raised exception,
plus the outbound request that was issued (`none` when no network call was
made).  `ρ` describes the outbound request, `α` the successful result. -/
structure OpResult (ρ α : Type) where
  result : Except PyExc α
  outbound : Option ρ
deriving DecidableEq

/-! ## Client operations (hevy_api.HevyClient) -/

/-- The outbound POST to `/login`: URL and JSON body fields. -/
structure LoginCall where
  url : String
  emailOrUsername : String
  password : String
  useAuth2_0 : Bool
deriving DecidableEq

/-- The decodable part of the login response body that the code reads:
`data.get("auth_token")` and `data.get("user_id")` (absent keys give
`None`). -/
structure LoginJson where
  auth_token : Option String
  user_id : Option String
deriving DecidableEq

/-- `HevyClient.login(email_or_username, password)`.  On a response,
`raise_for_status()` runs first (`HTTPError` for status 400-599; a 401 maps
to the message "Invalid credentials"); then `response.json()` may raise a
decode error; on success the client stores `data.get("auth_token")`, updates
its session headers, and returns a `HevyUser` whose username/email are
derived from the identifier by the Python test `"@" in email_or_username`.
Connection errors, timeouts and unexpected exceptions are re-raised as
`HevyError` with the corresponding message. -/
def HevyClient.login (c : HevyClient) (email_or_username password : String)
    (net : NetResult LoginJson) : OpResult LoginCall (HevyUser × HevyClient) :=
  { outbound := some ⟨login_url, email_or_username, password, true⟩,
    result :=
      match net with
      | .response status errStr body =>
        if raiseForStatus status then
          if status = 401 then .error (.hevy "Invalid credentials")
          else .error (.hevy ("HTTP error occurred: " ++ errStr))
        else
          match body with
          | .error d => .error (.hevy ("JSON decode error occurred: " ++ d))
          | .ok data =>
            .ok (⟨data.auth_token, data.user_id,
                  if pyIn "@" email_or_username then none else some email_or_username,
                  if pyIn "@" email_or_username then some email_or_username else none⟩,
                 HevyClient.updateHeaders { c with auth_token := data.auth_token })
      | .connError d => .error (.hevy ("Connection error occurred: " ++ d))
      | .timeout d => .error (.hevy ("Request timed out: " ++ d))
      | .otherExc d => .error (.hevy ("Unexpected error occurred: " ++ d)) }

/-- The outbound POST to `/validate_auth_token` with its JSON body. -/
structure ValidateCall where
  url : String
  authToken : String
deriving DecidableEq

/-- `HevyClient.validate_auth_token()`.  A falsy stored token returns `False`
with no outbound call.  Otherwise the call is issued; any response gives
`status == 200` (no `raise_for_status`, no body decoding), and only
`requests.RequestException` (connection error, timeout) is re-raised as
`HevyError`; any other exception propagates as itself. -/
def HevyClient.validate_auth_token (c : HevyClient) (net : NetResult Unit) :
    OpResult ValidateCall Bool :=
  match c.auth_token with
  | none => ⟨.ok false, none⟩
  | some tok =>
    if tok == "" then ⟨.ok false, none⟩
    else
      { outbound := some ⟨validate_token_url, tok⟩,
        result :=
          match net with
          | .response status _ _ => .ok (decide (status = 200))
          | .connError d => .error (.hevy ("Token validation failed: " ++ d))
          | .timeout d => .error (.hevy ("Token validation failed: " ++ d))
          | .otherExc d => .error (.other d) }

/-- `HevyClient.get_user_account()`.  A falsy stored token raises the local
`HevyError` "No auth token available. Please login first." with no outbound
call.  Otherwise a GET to `/user/account` is issued; `raise_for_status`
maps a 401 to "Unauthorized - Invalid or expired auth token"; all failure
modes are re-raised as `HevyError`.  The account payload is opaque (a raw
string stands for the decoded JSON dict). -/
def HevyClient.get_user_account (c : HevyClient) (net : NetResult String) :
    OpResult String String :=
  if truthy c.auth_token then
    { outbound := some user_account_url,
      result :=
        match net with
        | .response status errStr body =>
          if raiseForStatus status then
            if status = 401 then .error (.hevy "Unauthorized - Invalid or expired auth token")
            else .error (.hevy ("HTTP error occurred: " ++ errStr))
          else
            match body with
            | .error d => .error (.hevy ("JSON decode error occurred: " ++ d))
            | .ok data => .ok data
        | .connError d => .error (.hevy ("Connection error occurred: " ++ d))
        | .timeout d => .error (.hevy ("Request timed out: " ++ d))
        | .otherExc d => .error (.hevy ("Unexpected error occurred: " ++ d)) }
  else ⟨.error (.hevy "No auth token available. Please login first."), none⟩

/-- The outbound GET to `/user_workouts_paged` with its query params:
`offset` always, `username` only when truthy (non-empty). -/
structure WorkoutCall where
  url : String
  offset : Int
  username : Option String
deriving DecidableEq

/-- `HevyClient.get_workouts(username, offset)`.  A falsy stored token raises
the local `HevyError` with no outbound call.  Otherwise the GET is issued
with `offset` passed as given and `username` included only when non-empty;
error translation is identical to `get_user_account`. -/
def HevyClient.get_workouts (c : HevyClient) (username : String) (offset : Int)
    (net : NetResult String) : OpResult WorkoutCall String :=
  if truthy c.auth_token then
    { outbound := some ⟨user_workouts_paged_url, offset,
        if username == "" then none else some username⟩,
      result :=
        match net with
        | .response status errStr body =>
          if raiseForStatus status then
            if status = 401 then .error (.hevy "Unauthorized - Invalid or expired auth token")
            else .error (.hevy ("HTTP error occurred: " ++ errStr))
          else
            match body with
            | .error d => .error (.hevy ("JSON decode error occurred: " ++ d))
            | .ok data => .ok data
        | .connError d => .error (.hevy ("Connection error occurred: " ++ d))
        | .timeout d => .error (.hevy ("Request timed out: " ++ d))
        | .otherExc d => .error (.hevy ("Unexpected error occurred: " ++ d)) }
  else ⟨.error (.hevy "No auth token available. Please login first."), none⟩

/-! ## Relay layer (fastapi_server.py) -/

/-- The helper `fastapi_server.get_auth_token`: raises
`HTTPException(401, "Missing auth-token header")` for a falsy header value,
else returns the token.  Note: no route handler in fastapi_server.py calls
this function; the handlers declare the header directly via
`Header(..., alias="auth-token")`. -/
def get_auth_token (auth_token : Option String) : Except (Nat × String) String :=
  match auth_token with
  | none => .error (401, "Missing auth-token header")
  | some s => if s == "" then .error (401, "Missing auth-token header") else .ok s

/-- A relay response: HTTP status, detail text, and the outbound request the
handler caused the client wrapper to issue (`none` when no outbound call was
made). -/
structure RelayResult (ρ : Type) where
  status : Nat
  detail : String
  outbound : Option ρ
deriving DecidableEq

/-- The `POST /api/login` handler body (rate limiting modelled separately).
The handler builds a fresh `HevyClient()` and delegates.  A `HevyError` maps
to `HTTPException(401, str(e))`; any other exception — in particular the
pydantic `ValidationError` raised when `LoginResponse` receives `None` for
the required `str` fields `auth_token` or `user_id` — is caught by the
handler's `except Exception` clause and maps to
`HTTPException(500, "Internal server error")`. -/
def relayLogin (emailOrUsername password : String) (net : NetResult LoginJson) :
    RelayResult LoginCall :=
  let r := (HevyClient.init none).login emailOrUsername password net
  match r.result with
  | .ok (user, _) =>
    match user.auth_token, user.user_id with
    | some _, some _ => ⟨200, "", r.outbound⟩
    | _, _ => ⟨500, "Internal server error", r.outbound⟩
  | .error (.hevy msg) => ⟨401, msg, r.outbound⟩
  | .error (.other _) => ⟨500, "Internal server error", r.outbound⟩

/-- The response of `POST /api/validate`: status, the `ValidateTokenResponse`
fields when one is produced, and the outbound request. -/
structure ValidateRelayResult where
  status : Nat
  valid : Option Bool
  error : Option String
  outbound : Option ValidateCall
deriving DecidableEq

/-- The `POST /api/validate` handler.  It builds `HevyClient(auth_token)` and
delegates; a `HevyError` yields a 200 response with `valid=False` and the
error text.  The handler catches only `HevyError`, so any other exception
escapes it; Starlette's error middleware (FastAPI's documented default for
unhandled exceptions) then answers with a plain 500 and no response model. -/
def relayValidate (auth_token : String) (net : NetResult Unit) : ValidateRelayResult :=
  let r := (HevyClient.init (some auth_token)).validate_auth_token net
  match r.result with
  | .ok b => ⟨200, some b, none, r.outbound⟩
  | .error (.hevy msg) => ⟨200, some false, some msg, r.outbound⟩
  | .error (.other _) => ⟨500, none, none, r.outbound⟩

/-- FastAPI's response to a request failing parameter validation (missing
required header/query parameter, or a query value violating a constraint
such as `ge=0`): a 422 validation-error response produced before the handler
body runs. -/
def validationErrorDetail : String := "Field required or constraint violated"

/-- The `GET /api/user/account` handler.  The `auth-token` header is declared
required via `Header(..., alias="auth-token")`: a missing header is rejected
by FastAPI with a 422 validation error before the handler runs (the
401-raising helper `get_auth_token` is never called).  Otherwise the handler
builds `HevyClient(token)`, delegates, and maps a `HevyError` to status 401
when its text contains "Unauthorized" and 500 otherwise. -/
def relayGetUserAccount (header : Option String) (net : NetResult String) :
    RelayResult String :=
  match header with
  | none => ⟨422, validationErrorDetail, none⟩
  | some tok =>
    let r := (HevyClient.init (some tok)).get_user_account net
    match r.result with
    | .ok _ => ⟨200, "", r.outbound⟩
    | .error (.hevy msg) =>
      ⟨if pyIn "Unauthorized" msg then 401 else 500, msg, r.outbound⟩
    | .error (.other _) => ⟨500, "Internal Server Error", r.outbound⟩

/-- The `GET /api/workouts` handler.  The `auth-token` header and the
`username` query parameter are required, and `offset` is declared
`Query(0, ge=0)`: a missing header/username or a negative offset is rejected
by FastAPI with a 422 validation error before the handler runs.  Otherwise
the handler delegates with the given username and offset and maps a
`HevyError` exactly as the account handler does. -/
def relayGetWorkouts (header : Option String) (offset : Int)
    (username : Option String) (net : NetResult String) : RelayResult WorkoutCall :=
  match header, username with
  | some tok, some un =>
    if offset < 0 then ⟨422, validationErrorDetail, none⟩
    else
      let r := (HevyClient.init (some tok)).get_workouts un offset net
      match r.result with
      | .ok _ => ⟨200, "", r.outbound⟩
      | .error (.hevy msg) =>
        ⟨if pyIn "Unauthorized" msg then 401 else 500, msg, r.outbound⟩
      | .error (.other _) => ⟨500, "Internal Server Error", r.outbound⟩
  | _, _ => ⟨422, validationErrorDetail, none⟩

/-! ## Login rate limiter

`@limiter.limit("5/minute")` on the login route uses slowapi, which applies
the limits library with its default "fixed-window" strategy and in-memory
storage: the first hit for a source address creates a counter that expires
60 seconds later; every hit while the counter is live increments it and is
allowed iff the new count is at most 5; a hit after expiry starts a fresh
window.  A denied hit raises `RateLimitExceeded` before the handler body
runs, so no `HevyClient` is built and no outbound call is issued for it. -/

/-- The live rate-limit counter for one source address: the window's start
time and the number of hits recorded in it. -/
structure RateWindow where
  start : Nat
  count : Nat
deriving DecidableEq

/-- One login attempt at time `t` against the limiter state: returns the new
state and whether the attempt was allowed through to the handler. -/
def rateHit (w : Option RateWindow) (t : Nat) : Option RateWindow × Bool :=
  match w with
  | none => (some ⟨t, 1⟩, true)
  | some win =>
    if t < win.start + 60 then
      (some ⟨win.start, win.count + 1⟩, decide (win.count + 1 ≤ 5))
    else (some ⟨t, 1⟩, true)

/-- Run a sequence of login attempts (by non-decreasing timestamps) from one
source address through the limiter; entry `i` of the result is true iff
attempt `i` reached the handler (and hence issued an outbound login call). -/
def rateSim (w : Option RateWindow) : List Nat → List Bool
  | [] => []
  | t :: ts =>
    let s := rateHit w t
    s.2 :: rateSim s.1 ts

/-! ## Helper lemmas -/

/-- A non-empty string is truthy. -/
theorem truthy_some {s : String} (h : s ≠ "") : truthy (some s) = true := by
  simp [truthy, h]

/-- Constructing a client stores exactly the given token. -/
theorem init_auth_token (t : Option String) : (HevyClient.init t).auth_token = t := by
  unfold HevyClient.init HevyClient.updateHeaders
  split <;> rfl

/-! ## Claims -/

/-- C1: for every login call whose outbound request succeeds with a 2xx
response and a decodable JSON body, `HevyClient.login` returns a `HevyUser`
whose auth_token and user_id come from the response body, with email set to
the identifier exactly when it contains "@" (username then `None`) and
username set to the identifier otherwise (email then `None`); the client
stores the token in its own state and updates its session headers. -/
theorem login_success_identity_and_side_effect
    (c : HevyClient) (id pw errStr : String) (status : Nat) (data : LoginJson)
    (h2 : 200 ≤ status) (h3 : status < 300) :
    c.login id pw (.response status errStr (.ok data)) =
      ⟨.ok (⟨data.auth_token, data.user_id,
             if pyIn "@" id then none else some id,
             if pyIn "@" id then some id else none⟩,
            ⟨data.auth_token, ⟨some x_api_key, data.auth_token, some "application/json"⟩⟩),
       some ⟨login_url, id, pw, true⟩⟩ := by
  have hb : raiseForStatus status = false := by
    have hlt : ¬ (400 ≤ status) := by omega
    simp [raiseForStatus, hlt]
  simp [HevyClient.login, hb, HevyClient.updateHeaders]

/-- Witness for C1 at a concrete 2xx response. -/
theorem login_success_identity_and_side_effect_witness :
    (200 ≤ 200 ∧ 200 < 300) ∧
    (HevyClient.init none).login "a@b" "pw" (.response 200 "" (.ok ⟨some "tok", some "uid"⟩)) =
      ⟨.ok (⟨some "tok", some "uid", none, some "a@b"⟩,
            ⟨some "tok", ⟨some x_api_key, some "tok", some "application/json"⟩⟩),
       some ⟨login_url, "a@b", "pw", true⟩⟩ :=
  ⟨⟨by decide, by decide⟩,
   (login_success_identity_and_side_effect (HevyClient.init none) "a@b" "pw" "" 200
      ⟨some "tok", some "uid"⟩ (by decide) (by decide)).trans (by decide)⟩

/-- C2: a client whose stored token is falsy raises the local `HevyError`
"No auth token available. Please login first." from `get_user_account` and
`get_workouts` without issuing any outbound call, whatever the network would
have answered; `validate_auth_token` likewise issues no outbound call, so no
authenticated call is ever made without a token. -/
theorem no_token_no_network
    (c : HevyClient) (h : truthy c.auth_token = false) :
    (∀ net : NetResult String, c.get_user_account net =
       ⟨.error (.hevy "No auth token available. Please login first."), none⟩) ∧
    (∀ (un : String) (off : Int) (net : NetResult String), c.get_workouts un off net =
       ⟨.error (.hevy "No auth token available. Please login first."), none⟩) ∧
    (∀ net : NetResult Unit, (c.validate_auth_token net).outbound = none) := by
  refine ⟨fun net => ?_, fun un off net => ?_, fun net => ?_⟩
  · simp [HevyClient.get_user_account, h]
  · simp [HevyClient.get_workouts, h]
  · cases hc : c.auth_token with
    | none => simp [HevyClient.validate_auth_token, hc]
    | some s =>
      have hs : (s == "") = true := by
        rw [hc] at h
        simpa [truthy] using h
      simp [HevyClient.validate_auth_token, hc, hs]

/-- Witness for C2 on a concrete tokenless client. -/
theorem no_token_no_network_witness :
    truthy (HevyClient.init none).auth_token = false ∧
    (HevyClient.init none).get_user_account (.connError "x") =
      ⟨.error (.hevy "No auth token available. Please login first."), none⟩ ∧
    (HevyClient.init none).get_workouts "bob" 0 (.response 200 "" (.ok "w")) =
      ⟨.error (.hevy "No auth token available. Please login first."), none⟩ :=
  ⟨by decide,
   (no_token_no_network (HevyClient.init none) (by decide)).1 (.connError "x"),
   (no_token_no_network (HevyClient.init none) (by decide)).2.1 "bob" 0
     (.response 200 "" (.ok "w"))⟩

/-- C4: `validate_auth_token` returns `False` without any outbound call when
the stored token is falsy; with a token it issues the call and returns `True`
exactly for status 200 and `False` for any other status; it raises the domain
error only on transport failure (connection error or timeout), never treating
an invalid token as an error. -/
theorem validate_auth_token_spec (c : HevyClient) :
    (truthy c.auth_token = false →
      ∀ net : NetResult Unit, c.validate_auth_token net = ⟨.ok false, none⟩) ∧
    (truthy c.auth_token = true →
      (∀ (s : Nat) (e : String) (b : Except String Unit),
         (c.validate_auth_token (.response s e b)).result = .ok (decide (s = 200)) ∧
         (c.validate_auth_token (.response s e b)).outbound ≠ none) ∧
      (∀ d : String,
         (c.validate_auth_token (.connError d)).result =
           .error (.hevy ("Token validation failed: " ++ d)) ∧
         (c.validate_auth_token (.timeout d)).result =
           .error (.hevy ("Token validation failed: " ++ d)))) ∧
    (∀ (net : NetResult Unit) (msg : String),
      (c.validate_auth_token net).result = .error (.hevy msg) →
      ∃ d, net = .connError d ∨ net = .timeout d) := by
  refine ⟨fun h net => ?_, fun h => ⟨fun s e b => ?_, fun d => ?_⟩, fun net msg h => ?_⟩
  · cases hc : c.auth_token with
    | none => simp [HevyClient.validate_auth_token, hc]
    | some s =>
      have hs : (s == "") = true := by
        rw [hc] at h
        simpa [truthy] using h
      simp [HevyClient.validate_auth_token, hc, hs]
  · cases hc : c.auth_token with
    | none => rw [hc] at h; simp [truthy] at h
    | some s =>
      have hs : (s == "") = false := by
        rw [hc] at h
        simpa [truthy] using h
      simp [HevyClient.validate_auth_token, hc, hs]
  · cases hc : c.auth_token with
    | none => rw [hc] at h; simp [truthy] at h
    | some s =>
      have hs : (s == "") = false := by
        rw [hc] at h
        simpa [truthy] using h
      simp [HevyClient.validate_auth_token, hc, hs]
  · cases hc : c.auth_token with
    | none => simp [HevyClient.validate_auth_token, hc] at h
    | some s =>
      by_cases hs : (s == "") = true
      · simp [HevyClient.validate_auth_token, hc, hs] at h
      · rw [Bool.not_eq_true] at hs
        cases net with
        | response st e b => simp [HevyClient.validate_auth_token, hc, hs] at h
        | connError d => exact ⟨d, Or.inl rfl⟩
        | timeout d => exact ⟨d, Or.inr rfl⟩
        | otherExc d => simp [HevyClient.validate_auth_token, hc, hs] at h

/-- Witness for C4 on concrete clients and network outcomes. -/
theorem validate_auth_token_spec_witness :
    truthy (HevyClient.init none).auth_token = false ∧
    (HevyClient.init none).validate_auth_token (.response 200 "" (.ok ())) = ⟨.ok false, none⟩ ∧
    truthy (HevyClient.init (some "tok")).auth_token = true ∧
    ((HevyClient.init (some "tok")).validate_auth_token (.response 404 "" (.ok ()))).result =
      .ok (decide ((404 : Nat) = 200)) :=
  ⟨by decide,
   (validate_auth_token_spec (HevyClient.init none)).1 (by decide) (.response 200 "" (.ok ())),
   by decide,
   (((validate_auth_token_spec (HevyClient.init (some "tok"))).2.1 (by decide)).1 404 "" (.ok ())).1⟩

/-- C5: a login whose outbound call answers 401 raises the invalid-credentials
variant ("Invalid credentials") of the domain error, and the relay maps it to
a 401 response, never the generic 500 internal failure. -/
theorem login_401_invalid_credentials
    (c : HevyClient) (id pw errStr : String) (body : Except String LoginJson) :
    (c.login id pw (.response 401 errStr body)).result = .error (.hevy "Invalid credentials") ∧
    relayLogin id pw (.response 401 errStr body) =
      ⟨401, "Invalid credentials", some ⟨login_url, id, pw, true⟩⟩ ∧
    (relayLogin id pw (.response 401 errStr body)).status ≠ 500 := by
  refine ⟨?_, ?_, ?_⟩ <;>
    simp [HevyClient.login, relayLogin, raiseForStatus]

/-- C3 fails as stated: on the login endpoint a connection failure is mapped
to 401, not 500 (the handler maps every `HevyError` to 401); and on the
account endpoint an unexpected failure whose text happens to contain
"Unauthorized" is mapped to 401 by the substring test, not 500. -/
theorem relay_error_mapping_counterexample :
    (relayLogin "user" "pw" (.connError "connection refused")).status = 401 ∧
    (relayLogin "user" "pw" (.connError "connection refused")).status ≠ 500 ∧
    (relayGetUserAccount (some "tok") (.otherExc "Unauthorized cache corrupted")).status = 401 ∧
    (relayGetUserAccount (some "tok") (.otherExc "Unauthorized cache corrupted")).status ≠ 500 := by
  refine ⟨by decide, by decide, by decide, by decide⟩

/-- C3 amended: on login the relay maps every domain error — invalid
credentials, connection failure, timeout, malformed response, unexpected
failure — to 401 with the error's text; on the account and workouts
endpoints the relay maps a domain error to 401 exactly when its text
contains "Unauthorized" (in particular the unauthorized/expired-token
variant raised for an outbound 401) and to 500 otherwise. -/
theorem relay_error_mapping_amended :
    (∀ (u p : String) (net : NetResult LoginJson) (msg : String),
       ((HevyClient.init none).login u p net).result = .error (.hevy msg) →
       relayLogin u p net = ⟨401, msg, some ⟨login_url, u, p, true⟩⟩) ∧
    (∀ (tok : String) (net : NetResult String) (msg : String),
       ((HevyClient.init (some tok)).get_user_account net).result = .error (.hevy msg) →
       (relayGetUserAccount (some tok) net).status =
         if pyIn "Unauthorized" msg then 401 else 500) ∧
    (∀ (tok un : String) (off : Int) (net : NetResult String) (msg : String),
       0 ≤ off →
       ((HevyClient.init (some tok)).get_workouts un off net).result = .error (.hevy msg) →
       (relayGetWorkouts (some tok) off (some un) net).status =
         if pyIn "Unauthorized" msg then 401 else 500) ∧
    (∀ (tok e : String) (b : Except String String), tok ≠ "" →
       (relayGetUserAccount (some tok) (.response 401 e b)).status = 401) := by
  refine ⟨fun u p net msg h => ?_, fun tok net msg h => ?_,
          fun tok un off net msg hoff h => ?_, fun tok e b htok => ?_⟩
  · simp only [relayLogin, h]
    rfl
  · simp only [relayGetUserAccount, h]
  · simp only [relayGetWorkouts]
    rw [if_neg (by omega)]
    simp only [h]
  · have hc : truthy (HevyClient.init (some tok)).auth_token = true := by
      rw [init_auth_token]; exact truthy_some htok
    have hr : raiseForStatus 401 = true := by decide
    simp only [relayGetUserAccount, HevyClient.get_user_account, hc, if_true, hr,
      eq_self_iff_true]
    show (if pyIn "Unauthorized" "Unauthorized - Invalid or expired auth token"
      then 401 else 500) = 401
    decide

/-- Witness for the amended C3 at concrete error outcomes of each kind. -/
theorem relay_error_mapping_amended_witness :
    relayLogin "u" "p" (.connError "refused") =
      ⟨401, "Connection error occurred: refused", some ⟨login_url, "u", "p", true⟩⟩ ∧
    (relayGetUserAccount (some "tok") (.timeout "slow")).status = 500 ∧
    (relayGetWorkouts (some "tok") 0 (some "bob") (.connError "down")).status = 500 ∧
    (relayGetUserAccount (some "tok") (.response 401 "401 Client Error" (.ok "{}"))).status = 401 := by
  refine ⟨?_, ?_, ?_, ?_⟩
  · exact relay_error_mapping_amended.1 "u" "p" (.connError "refused")
      "Connection error occurred: refused" (by decide)
  · rw [relay_error_mapping_amended.2.1 "tok" (.timeout "slow")
      "Request timed out: slow" (by decide)]
    decide
  · rw [relay_error_mapping_amended.2.2.1 "tok" "bob" 0 (.connError "down")
      "Connection error occurred: down" (by decide) (by decide)]
    decide
  · exact relay_error_mapping_amended.2.2.2 "tok" "401 Client Error" (.ok "{}") (by decide)

/-- C6 fails on the code as written: the handlers declare the `auth-token`
header via `Header(..., alias="auth-token")`, so an inbound account or
workouts request without the header is answered by FastAPI's 422
validation-error response, not a 401 unauthorized response (no outbound call
is made, as claimed); the helper `get_auth_token`, which would raise the
intended `HTTPException(401, "Missing auth-token header")`, is defined but
never called by any handler. -/
theorem missing_token_header_gives_422_not_401 :
    (∀ net : NetResult String,
       relayGetUserAccount none net = ⟨422, validationErrorDetail, none⟩ ∧
       (relayGetUserAccount none net).status ≠ 401) ∧
    (∀ (off : Int) (un : Option String) (net : NetResult String),
       relayGetWorkouts none off un net = ⟨422, validationErrorDetail, none⟩) ∧
    get_auth_token none = .error (401, "Missing auth-token header") := by
  refine ⟨fun net => ⟨rfl, ?_⟩, fun off un net => ?_, rfl⟩
  · show (422 : Nat) ≠ 401
    decide
  · cases un <;> rfl

/-- C7 fails as stated: the limiter's default strategy is a fixed window
anchored at the first attempt, not a rolling 60-second window.  In the run
below the attempts at times 30, 31, 32, 33, 61 and 62 all fall inside one
rolling 60-second window (six attempts, more than 5), yet every one of them
is allowed through to the handler and thus triggers an outbound login call:
the counter created at time 0 expires at time 60 and a fresh window starts
at 61. -/
theorem login_rate_limit_rolling_counterexample :
    rateSim none [0, 30, 31, 32, 33, 61, 62] =
      [true, true, true, true, true, true, true] ∧
    (List.filter (fun t => decide (30 ≤ t) && decide (t < 90))
      [0, 30, 31, 32, 33, 61, 62]).length = 6 := by
  refine ⟨by decide, by decide⟩

/-- C7 amended: login attempts from one source are limited per fixed
60-second window anchored at the window's first attempt: an attempt while
the window's counter is live and already at 5 or more is rejected (the
counter is incremented but the attempt is denied), and the rejection raises
`RateLimitExceeded` before the handler body runs, so no client wrapper is
built and no outbound login call is issued for it; every attempt allowed
through leaves its window's counter at most 5, so at most 5 attempts per
fixed window reach the handler. -/
theorem login_rate_limit_fixed_window (s c t : Nat)
    (hc : 5 ≤ c) (ht : t < s + 60) :
    rateHit (some ⟨s, c⟩) t = (some ⟨s, c + 1⟩, false) ∧
    (∀ (w : Option RateWindow) (u : Nat) (w2 : RateWindow),
       (rateHit w u).2 = true → (rateHit w u).1 = some w2 → w2.count ≤ 5) := by
  constructor
  · have hd : ¬ (c + 1 ≤ 5) := by omega
    simp [rateHit, ht, hd]
  · intro w u w2 hall hw
    cases w with
    | none =>
      have hw2 : some (⟨u, 1⟩ : RateWindow) = some w2 := hw
      injection hw2 with h2
      rw [← h2]
      show (1 : Nat) ≤ 5
      decide
    | some win =>
      by_cases hu : u < win.start + 60
      · have heq : rateHit (some win) u =
            (some ⟨win.start, win.count + 1⟩, decide (win.count + 1 ≤ 5)) := by
          simp [rateHit, hu]
        rw [heq] at hall hw
        have hle : win.count + 1 ≤ 5 := of_decide_eq_true hall
        injection hw with h2
        rw [← h2]
        exact hle
      · have heq : rateHit (some win) u = (some ⟨u, 1⟩, true) := by
          simp [rateHit, hu]
        rw [heq] at hw
        injection hw with h2
        rw [← h2]
        show (1 : Nat) ≤ 5
        decide

/-- Witness for the amended C7: the sixth attempt inside a live window is
denied. -/
theorem login_rate_limit_fixed_window_witness :
    5 ≤ 5 ∧ 30 < 0 + 60 ∧
    rateHit (some ⟨0, 5⟩) 30 = (some ⟨0, 6⟩, false) :=
  ⟨by decide, by decide,
   (login_rate_limit_fixed_window 0 5 30 (by decide) (by decide)).1⟩

/-- C8: the workouts endpoint rejects every negative offset with a
validation error and no outbound call (no delegation to the client wrapper),
and for a non-negative offset with a present token the offset reaches the
outbound pagination call unchanged. -/
theorem workouts_offset_validation_and_passthrough :
    (∀ (header : Option String) (off : Int) (un : Option String) (net : NetResult String),
       off < 0 → relayGetWorkouts header off un net = ⟨422, validationErrorDetail, none⟩) ∧
    (∀ (tok un : String) (off : Int) (net : NetResult String),
       tok ≠ "" → 0 ≤ off →
       (relayGetWorkouts (some tok) off (some un) net).outbound =
         some ⟨user_workouts_paged_url, off, if un == "" then none else some un⟩) := by
  constructor
  · intro header off un net hneg
    cases header with
    | none => cases un <;> rfl
    | some tok =>
      cases un with
      | none => rfl
      | some u => simp only [relayGetWorkouts]; rw [if_pos hneg]
  · intro tok un off net htok hoff
    have hc : truthy (HevyClient.init (some tok)).auth_token = true := by
      rw [init_auth_token]; exact truthy_some htok
    simp only [relayGetWorkouts]
    rw [if_neg (by omega)]
    cases hres : ((HevyClient.init (some tok)).get_workouts un off net).result with
    | ok a =>
      simp only [hres]
      simp [HevyClient.get_workouts, hc]
    | error e =>
      cases e with
      | hevy m =>
        simp only [hres]
        simp [HevyClient.get_workouts, hc]
      | other m =>
        simp only [hres]
        simp [HevyClient.get_workouts, hc]

/-- Witness for C8 at a concrete negative and non-negative offset. -/
theorem workouts_offset_validation_and_passthrough_witness :
    ((-3 : Int) < 0 ∧
      relayGetWorkouts (some "tok") (-3) (some "bob") (.response 200 "" (.ok "w")) =
        ⟨422, validationErrorDetail, none⟩) ∧
    (0 ≤ (5 : Int) ∧
      (relayGetWorkouts (some "tok") 5 (some "bob") (.response 200 "" (.ok "w"))).outbound =
        some ⟨user_workouts_paged_url, 5, if "bob" == "" then none else some "bob"⟩) :=
  ⟨⟨by decide,
     workouts_offset_validation_and_passthrough.1 (some "tok") (-3) (some "bob")
       (.response 200 "" (.ok "w")) (by decide)⟩,
   ⟨by decide,
     workouts_offset_validation_and_passthrough.2 "tok" "bob" 5
       (.response 200 "" (.ok "w")) (by decide) (by decide)⟩⟩

/-- C9: every endpoint maps every exception to a response instead of letting
it escape: exceptions that are not the domain error become a generic 500
internal-failure response (on validate via the framework's default handler
for the exception that escapes the handler, on login via the handler's own
`except Exception` clause when building the response model fails), and every
endpoint's status always lies in its fixed finite set of mapped statuses. -/
theorem relay_maps_all_failures :
    (∀ (tok d : String), tok ≠ "" →
       relayValidate tok (.otherExc d) = ⟨500, none, none, some ⟨validate_token_url, tok⟩⟩) ∧
    (∀ (id pw e : String) (s : Nat) (uid : Option String), 200 ≤ s → s < 300 →
       relayLogin id pw (.response s e (.ok ⟨none, uid⟩)) =
         ⟨500, "Internal server error", some ⟨login_url, id, pw, true⟩⟩) ∧
    (∀ (id pw : String) (net : NetResult LoginJson),
       (relayLogin id pw net).status ∈ ([200, 401, 500] : List Nat)) ∧
    (∀ (hd : Option String) (net : NetResult String),
       (relayGetUserAccount hd net).status ∈ ([200, 401, 422, 500] : List Nat)) ∧
    (∀ (hd : Option String) (off : Int) (un : Option String) (net : NetResult String),
       (relayGetWorkouts hd off un net).status ∈ ([200, 401, 422, 500] : List Nat)) ∧
    (∀ (tok : String) (net : NetResult Unit),
       (relayValidate tok net).status ∈ ([200, 500] : List Nat)) := by
  refine ⟨fun tok d htok => ?_, fun id pw e s uid h2 h3 => ?_, fun id pw net => ?_,
          fun hd net => ?_, fun hd off un net => ?_, fun tok net => ?_⟩
  · have hs : (tok == "") = false := by
      rw [beq_eq_false_iff_ne]
      exact htok
    simp [relayValidate, HevyClient.validate_auth_token, init_auth_token, hs]
  · have hb : raiseForStatus s = false := by
      have hlt : ¬ (400 ≤ s) := by omega
      simp [raiseForStatus, hlt]
    cases uid <;> simp [relayLogin, HevyClient.login, hb]
  · cases hres : ((HevyClient.init none).login id pw net).result with
    | ok a =>
      obtain ⟨user, c2⟩ := a
      cases hu1 : user.auth_token <;> cases hu2 : user.user_id <;>
        simp [relayLogin, hres, hu1, hu2]
    | error e =>
      cases e <;> simp [relayLogin, hres]
  · cases hd with
    | none => simp [relayGetUserAccount]
    | some tok =>
      cases hres : ((HevyClient.init (some tok)).get_user_account net).result with
      | ok a => simp [relayGetUserAccount, hres]
      | error e =>
        cases e with
        | hevy m =>
          simp only [relayGetUserAccount, hres]
          split <;> simp
        | other m => simp [relayGetUserAccount, hres]
  · cases hd with
    | none => cases un <;> simp [relayGetWorkouts]
    | some tok =>
      cases un with
      | none => simp [relayGetWorkouts]
      | some u =>
        by_cases hneg : off < 0
        · simp [relayGetWorkouts, hneg]
        · cases hres : ((HevyClient.init (some tok)).get_workouts u off net).result with
          | ok a => simp [relayGetWorkouts, hneg, hres]
          | error e =>
            cases e with
            | hevy m =>
              simp only [relayGetWorkouts, hneg, if_false, hres]
              split <;> simp
            | other m => simp [relayGetWorkouts, hneg, hres]
  · by_cases hs : (tok == "") = true
    · simp [relayValidate, HevyClient.validate_auth_token, init_auth_token, hs]
    · rw [Bool.not_eq_true] at hs
      cases net <;> simp [relayValidate, HevyClient.validate_auth_token, init_auth_token, hs]

/-- Witness for C9: a non-domain exception on validate yields the framework's
plain 500, and a decodable 2xx login body missing `auth_token` yields the
handler's generic 500. -/
theorem relay_maps_all_failures_witness :
    relayValidate "tok" (.otherExc "boom") =
      ⟨500, none, none, some ⟨validate_token_url, "tok"⟩⟩ ∧
    relayLogin "bob" "pw" (.response 200 "" (.ok ⟨none, some "uid"⟩)) =
      ⟨500, "Internal server error", some ⟨login_url, "bob", "pw", true⟩⟩ :=
  ⟨relay_maps_all_failures.1 "tok" "boom" (by decide),
   relay_maps_all_failures.2.1 "bob" "pw" "" 200 (some "uid") (by decide) (by decide)⟩

/-- C10: an inbound account or workouts request whose auth-token header is
the empty string passes FastAPI's presence validation, the client treats the
falsy token as absent and raises its local no-token `HevyError` without any
outbound call, and because that message does not contain "Unauthorized" the
relay maps it to 500, not 401. -/
theorem empty_token_header_local_error_500 :
    (∀ net : NetResult String,
       ((HevyClient.init (some "")).get_user_account net).result =
         .error (.hevy "No auth token available. Please login first.") ∧
       relayGetUserAccount (some "") net =
         ⟨500, "No auth token available. Please login first.", none⟩ ∧
       (relayGetUserAccount (some "") net).status ≠ 401) ∧
    pyIn "Unauthorized" "No auth token available. Please login first." = false ∧
    (∀ (off : Int) (un : String) (net : NetResult String), 0 ≤ off →
       relayGetWorkouts (some "") off (some un) net =
         ⟨500, "No auth token available. Please login first.", none⟩) := by
  refine ⟨fun net => ⟨rfl, rfl, ?_⟩, by decide, fun off un net hoff => ?_⟩
  · show (500 : Nat) ≠ 401
    decide
  · simp only [relayGetWorkouts]
    rw [if_neg (by omega)]
    rfl

/-- Witness for C10 at a concrete non-negative offset. -/
theorem empty_token_header_local_error_500_witness :
    (0 ≤ (0 : Int)) ∧
    relayGetWorkouts (some "") 0 (some "bob") (.timeout "slow") =
      ⟨500, "No auth token available. Please login first.", none⟩ :=
  ⟨by decide,
   empty_token_header_local_error_500.2.2 0 "bob" (.timeout "slow") (by decide)⟩

end HevyInsights
